import Mathlib

/-!
Shallow embedding of `src/mysql-proxy-cli.c` from the cetus repository:
the bootstrap / configuration-resolution / shutdown layer of the proxy.

C `int` fields are embedded as `Int`; the two places where the source
shifts (`<< 1`, `<< 3`) are embedded with an explicit signed 32-bit wrap
`wrap32`, since those are the only arithmetic operations in the embedded
code that can leave the `int` range.  C `double` fields (the slave-delay
thresholds) are embedded as `Rat`: the source only compares them and
divides by two, and both operations are exact on the dyadic values the
configuration layer handles.  Pointers that are only tested against NULL
become `Option`.
-/

namespace Cetus

/-- Log severities used by this translation unit (glib log levels):
`message` is G_LOG_LEVEL_MESSAGE (informational), `warning` is
G_LOG_LEVEL_WARNING, `critical` is G_LOG_LEVEL_CRITICAL. -/
inductive Severity
  | message
  | warning
  | critical
deriving DecidableEq, Repr

/-- Payload of a log line.  The terminal shutdown line of `main_cmdline`
(`"shutting down normally, exit code is: %d"`, line 1001) gets its own
constructor carrying the reported exit code; every other log call of the
embedded code is a plain text line. -/
inductive LogMsg
  | shuttingDown (code : Int)
  | text (s : String)
deriving DecidableEq, Repr

/-- One emitted log line: a severity and a payload. -/
structure LogEvent where
  sev : Severity
  msg : LogMsg
deriving DecidableEq, Repr

/-- Signed 32-bit wrap-around, the semantics of storing an out-of-range
value into a C `int` on the (twos-complement) platforms cetus targets. -/
def wrap32 (x : Int) : Int := (x + 2 ^ 31) % 2 ^ 32 - 2 ^ 31

/-- The `chassis_frontend_t` record (mysql-proxy-cli.c lines 65-124),
restricted to the fields this translation unit reads.  Flag-valued
`int`s are embedded as `Bool`; `invoke_dbg_on_crash` is kept numeric
(`Nat`) because claim C9 is about the literal value written into it. -/
structure Frontend where
  print_version : Bool := false
  verbose_shutdown : Bool := false
  daemon_mode : Bool := false
  set_client_found_rows : Bool := false
  default_pool_size : Int := 0
  max_pool_size : Int := 0
  merged_output_size : Int := 0
  max_header_size : Int := 0
  max_resp_len : Int := 0
  master_preferred : Bool := false
  worker_id : Int := 0
  config_port : Int := 0
  disable_threads : Bool := false
  is_tcp_stream_enabled : Bool := false
  is_back_compressed : Bool := false
  is_client_compress_support : Bool := false
  check_slave_delay : Bool := false
  is_reset_conn_enabled : Bool := false
  xa_log_detailed : Bool := false
  default_query_cache_timeout : Int := 0
  query_cache_enabled : Bool := false
  disable_dns_cache : Bool := false
  slave_delay_down_threshold_sec : Rat := 0
  slave_delay_recover_threshold_sec : Rat := 0
  invoke_dbg_on_crash : Nat := 0
  auto_restart : Bool := false
  max_files_number : Int := 0
  default_file : Option String := none
  keyfile_open : Bool := false
  pid_file : Option String := none
  plugin_names : Option (List String) := none
  log_filename : Option String := none
  log_level : Option String := none
  default_username : Option String := none
  remote_config_url : Option String := none
deriving DecidableEq, Repr

/-- `chassis_frontend_new` (lines 129-151): `g_slice_new0` zeroes every
field, then the listed defaults are written. -/
def chassis_frontend_new : Frontend :=
  { max_files_number := 0
    disable_threads := false
    is_back_compressed := false
    is_client_compress_support := false
    xa_log_detailed := false
    default_pool_size := 100
    max_resp_len := 10 * 1024 * 1024
    merged_output_size := 8192
    max_header_size := 65536
    config_port := 3306
    slave_delay_down_threshold_sec := 60
    default_query_cache_timeout := 100
    disable_dns_cache := false }

/-- The fields of the `chassis` object (`srv`) written by
`init_parameters` (lines 458-532).  `slave_delay_warned` records whether
the two `g_warning` lines at 521-522 were emitted.  The assignments
using the constants `MAX_QUERY_TIME` / `MAX_ALLOWED_PACKET_FLOOR` /
`MAX_ALLOWED_PACKET_CEIL` (lines 529-531) are not embedded: those
constants are defined outside this translation unit and no claim
depends on them. -/
structure SrvParams where
  default_username : Option String
  default_charset : Option String
  default_db : Option String
  mid_idle_connections : Int
  max_idle_connections : Int
  max_resp_len : Int
  merged_output_size : Int
  compressed_merged_output_size : Int
  max_header_size : Int
  guid_worker_id : Int
  client_found_rows : Bool
  xa_log_detailed : Bool
  is_reset_conn_enabled : Bool
  query_cache_enabled : Bool
  is_tcp_stream_enabled : Bool
  disable_threads : Bool
  is_back_compressed : Bool
  compress_support : Bool
  check_slave_delay : Bool
  slave_delay_down_threshold_sec : Rat
  slave_delay_recover_threshold_sec : Rat
  slave_delay_warned : Bool
  master_preferred : Bool
  disable_dns_cache : Bool
  default_query_cache_timeout : Int
deriving DecidableEq, Repr

/-- `init_parameters` (lines 458-532).  `prev_worker_id` is the value of
`srv->guid_state.worker_id` before the call: line 484 only overwrites it
when `frontend->worker_id > 0`.  `srv->mid_idle_connections << 1` (line
470) and `srv->merged_output_size << 3` (line 478) go through `wrap32`,
matching the C `int` shifts. -/
def init_parameters (f : Frontend) (prev_worker_id : Int) : SrvParams :=
  let mid := f.default_pool_size
  let maxIdle := if f.max_pool_size ≥ mid then f.max_pool_size else wrap32 (mid * 2)
  let merged := f.merged_output_size
  let recoverPair :=
    if f.slave_delay_recover_threshold_sec > 0 then
      if f.slave_delay_recover_threshold_sec > f.slave_delay_down_threshold_sec then
        (f.slave_delay_down_threshold_sec, true)
      else
        (f.slave_delay_recover_threshold_sec, false)
    else
      (f.slave_delay_down_threshold_sec / 2, false)
  { default_username := f.default_username
    default_charset := none
    default_db := none
    mid_idle_connections := mid
    max_idle_connections := maxIdle
    max_resp_len := f.max_resp_len
    merged_output_size := merged
    compressed_merged_output_size := wrap32 (merged * 8)
    max_header_size := f.max_header_size
    guid_worker_id := if f.worker_id > 0 then Int.land f.worker_id 63 else prev_worker_id
    client_found_rows := f.set_client_found_rows
    xa_log_detailed := f.xa_log_detailed
    is_reset_conn_enabled := f.is_reset_conn_enabled
    query_cache_enabled := f.query_cache_enabled
    is_tcp_stream_enabled := f.is_tcp_stream_enabled
    disable_threads := f.disable_threads
    is_back_compressed := f.is_back_compressed
    compress_support := f.is_client_compress_support
    check_slave_delay := f.check_slave_delay
    slave_delay_down_threshold_sec := f.slave_delay_down_threshold_sec
    slave_delay_recover_threshold_sec := recoverPair.1
    slave_delay_warned := recoverPair.2
    master_preferred := f.master_preferred
    disable_dns_cache := f.disable_dns_cache
    default_query_cache_timeout := max f.default_query_cache_timeout 1 }

/-- `check_plugin_mode_valid` (lines 425-446): scans the plugin-name
list, returns FALSE (and logs `"shard & proxy is mutual exclusive"` at
critical level) exactly when both `"shard"` and `"proxy"` occur. -/
def check_plugin_mode_valid (names : List String) : Bool :=
  let sharding_mode := names.any (fun n => n == "shard")
  let proxy_mode := names.any (fun n => n == "proxy")
  !(sharding_mode && proxy_mode)

/-- The built-in default plugin name (lines 824-828): the `#else` branch
of the `DEFAULT_PLUGIN` conditional, `"proxy"`. -/
def DEFAULT_PLUGIN : String := "proxy"

/-- Lines 822-830 of `main_cmdline`: when `frontend->plugin_names` is
NULL it is replaced by the two-slot array `{DEFAULT_PLUGIN, NULL}`,
i.e. the one-element list `[DEFAULT_PLUGIN]`; otherwise it is kept. -/
def resolve_plugin_names (names : Option (List String)) : List String :=
  match names with
  | none => [DEFAULT_PLUGIN]
  | some ns => ns

/-- What the SIGSEGV handler does after logging: it calls `abort()`
(raising SIGABRT) — `gracefulReturn` is the alternative the code never
takes. -/
inductive HandlerOutcome
  | abortSignal
  | gracefulReturn
deriving DecidableEq, Repr

/-- `log_backtrace` (lines 400-416).  The libc call
`backtrace(array, 16)` captures at most 16 frames of the current call
stack; the abstract `stack` argument stands for that call stack, so the
captured frames are `stack.take 16`.  One warning line reports the frame
count, then one warning line per captured frame. -/
def log_backtrace (stack : List String) : List LogEvent :=
  let frames := stack.take 16
  let n := frames.length
  ⟨Severity.warning, LogMsg.text ("Obtained " ++ toString n ++ " stack frames.")⟩ ::
    frames.map (fun s => ⟨Severity.warning, LogMsg.text s⟩)

/-- `sigsegv_handler` (lines 418-422): log the backtrace, then
`abort()`.  The handler never returns normally. -/
def sigsegv_handler (stack : List String) : List LogEvent × HandlerOutcome :=
  (log_backtrace stack, HandlerOutcome.abortSignal)

/-- Modelled from the spec: `chassis_options_parse_cmdline` lives
outside `src/`; per spec section 4.2 a command-line parse pass writes
each option value present on the command line into its registered slot
and leaves absent options untouched. -/
def applyCmdlinePass {α : Type} (slot : α) (cli : Option α) : α :=
  cli.getD slot

/-- Modelled from the spec: `chassis_keyfile_to_options_with_error`
lives outside `src/`; per spec section 4.2 it writes each keyfile value
whose key matches a registered option into that slot and leaves absent
keys untouched. -/
def applyKeyfilePass {α : Type} (slot : α) (keyfileVal : Option α) : α :=
  keyfileVal.getD slot

/-- Resolution of one option slot across the passes of `main_cmdline`,
in source order: the lenient command-line parse (line 712), the keyfile
application (line 718), and the second, strict command-line parse
(line 865), starting from the compiled-in default. -/
def resolveOptionValue {α : Type} (dflt : α) (keyfileVal cli : Option α) : α :=
  applyCmdlinePass (applyKeyfilePass (applyCmdlinePass dflt cli) keyfileVal) cli

/-- Environment of one `main_cmdline` run: the outcomes of the external
calls the function makes (all declared in headers outside this
translation unit) and the option values the configuration sources
supply.  `opt_*` fields are `none` when neither the command line nor
the keyfile supplies the option, so the compiled-in default survives;
flag options are carried as their resolved `Bool`.  `keepalive_ret` and
`child_exit_status` are the result of `chassis_unix_proc_keepalive`:
positive return means the supervisor role with the child already
stopped, negative means a supervisor error, zero means this process is
the child. -/
structure Env where
  glib_init_fails : Bool := false
  chassis_new_fails : Bool := false
  frontend_new_fails : Bool := false
  base_options_fail : Bool := false
  print_version : Bool := false
  default_file : Option String := none
  keyfile_open_fails : Bool := false
  cmdline_parse1_fails : Bool := false
  keyfile_apply_fails : Bool := false
  remote_config_url : Option String := none
  remote_config_init_fails : Bool := false
  remote_config_parse_fails : Bool := false
  basedir_init_fails : Bool := false
  on_valgrind : Bool := false
  log_backtrace_on_crash : Bool := false
  verbose_shutdown : Bool := false
  daemon_mode : Bool := false
  auto_restart : Bool := false
  keepalive_ret : Int := 0
  child_exit_status : Int := 0
  pid_file : Option String := none
  pidfile_write_fails : Bool := false
  log_filename : Option String := none
  log_open_fails : Bool := false
  log_level : Option String := none
  log_level_unknown : Bool := false
  network_init_fails : Bool := false
  plugin_names : Option (List String) := none
  load_plugins_fail : Bool := false
  init_plugins_fail : Bool := false
  cmdline_parse2_fails : Bool := false
  residual_args : Bool := false
  default_username : Option String := none
  max_files_number : Int := 0
  fdlimit_set_fails : Bool := false
  xa_log_init_fails : Bool := false
  mainloop_fails : Bool := false
  prev_guid_worker_id : Int := 0
  opt_default_pool_size : Option Int := none
  opt_max_pool_size : Option Int := none
  opt_worker_id : Option Int := none
  opt_slave_delay_down : Option Rat := none
  opt_slave_delay_recover : Option Rat := none
deriving Repr

/-- Modelled from the spec: the combined effect on the frontend record
of the lenient command-line parse (line 712), the keyfile application
(line 718) and the optional remote-config application (line 732) —
`chassis_options_parse_cmdline`, `chassis_keyfile_to_options_with_error`
and `chassis_config_parse_options` live outside `src/`.  Per spec
section 4.2 each pass writes every supplied value into its registered
slot and leaves unsupplied slots untouched; `Env` carries the values as
resolved across the sources. -/
def applyOptions (fr : Frontend) (env : Env) : Frontend :=
  { fr with
    verbose_shutdown := env.verbose_shutdown
    daemon_mode := env.daemon_mode
    auto_restart := env.auto_restart
    pid_file := env.pid_file
    log_filename := env.log_filename
    log_level := env.log_level
    default_username := env.default_username
    remote_config_url := env.remote_config_url
    plugin_names := env.plugin_names
    max_files_number := env.max_files_number
    invoke_dbg_on_crash := if env.log_backtrace_on_crash then 1 else 0
    default_pool_size := env.opt_default_pool_size.getD fr.default_pool_size
    max_pool_size := env.opt_max_pool_size.getD fr.max_pool_size
    worker_id := env.opt_worker_id.getD fr.worker_id
    slave_delay_down_threshold_sec :=
      env.opt_slave_delay_down.getD fr.slave_delay_down_threshold_sec
    slave_delay_recover_threshold_sec :=
      env.opt_slave_delay_recover.getD fr.slave_delay_recover_threshold_sec }

/-- Observable trace of a `main_cmdline` run, threaded through the
control flow: the emitted log lines a claim mentions, and which stages
were reached.  Routine `g_message` progress lines are elided — none of
them uses the `LogMsg.shuttingDown` constructor, which is all the trace
theorems count. -/
structure St where
  logs : List LogEvent := []
  crash_stage_reached : Bool := false
  handler_installed : Bool := false
  invoke_dbg_at_check : Option Nat := none
  init_plugins_completed : Bool := false
  mode_check_reached : Bool := false
  mode_conflict : Bool := false
  init_parameters_called : Bool := false
  mainloop_reached : Bool := false
  srv_params : Option SrvParams := none
deriving DecidableEq, Repr

/-- Result of a `main_cmdline` run: the trace, the returned exit code,
and the frontend pointer as the exit funnel saw it (`none` on the exit
paths taken before `chassis_frontend_new` succeeded). -/
structure RunResult extends St where
  exit_code : Int
  frontend_at_exit : Option Frontend
deriving DecidableEq, Repr

/-- The terminal shutdown log line appended by the exit funnel (lines
999-1004): emitted only when the frontend exists and `print_version` is
unset, at critical severity when `verbose_shutdown` is set and at
message (informational) severity otherwise. -/
def shutdown_line (fr : Option Frontend) (code : Int) : List LogEvent :=
  match fr with
  | none => []
  | some f =>
    if f.print_version then []
    else
      [⟨if f.verbose_shutdown then Severity.critical else Severity.message,
        LogMsg.shuttingDown code⟩]

/-- The `exit_nicely` funnel (lines 983-1017): every path of
`main_cmdline` returns through here, appending the terminal shutdown
line and recording the exit code. -/
def exit_nicely (st : St) (fr : Option Frontend) (code : Int) : RunResult :=
  { st with
    logs := st.logs ++ shutdown_line fr code
    exit_code := code
    frontend_at_exit := fr }

/-- The frontend after the base-options pass of line 673 succeeded:
`--version` and `--default-file` are recorded. -/
def frontend_pass1 (env : Env) : Frontend :=
  { chassis_frontend_new with
    print_version := env.print_version
    default_file := env.default_file }

/-- The frontend after the keyfile of `--default-file` (if any) was
opened successfully (lines 684-695). -/
def frontend_keyfile (env : Env) : Frontend :=
  { frontend_pass1 env with keyfile_open := env.default_file.isSome }

/-- The frontend after the option passes of lines 712-736 applied the
supplied configuration values. -/
def frontend_opts (env : Env) : Frontend :=
  applyOptions (frontend_keyfile env) env

/-- The frontend after line 749 unconditionally overwrote
`invoke_dbg_on_crash` with 1. -/
def frontend_crash (env : Env) : Frontend :=
  { frontend_opts env with invoke_dbg_on_crash := 1 }

/-- Lines 822-830 applied to the frontend: a NULL plugin-name array is
replaced by the one-element default list. -/
def with_plugins (fr : Frontend) : Frontend :=
  { fr with plugin_names := some (resolve_plugin_names fr.plugin_names) }

/-- The trace state after the crash-handler stage (lines 742-753): the
stage was reached, the flag value at the installation check is the
just-written `invoke_dbg_on_crash`, and the handler is installed iff
that flag is non-zero and the process is not under valgrind. -/
def st_crash (env : Env) : St :=
  { crash_stage_reached := true
    invoke_dbg_at_check := some (frontend_crash env).invoke_dbg_on_crash
    handler_installed :=
      ((frontend_crash env).invoke_dbg_on_crash != 0) && !env.on_valgrind }

/-- The critical log line of line 441. -/
def mode_conflict_line : LogEvent :=
  ⟨Severity.critical, LogMsg.text "shard & proxy is mutual exclusive"⟩

/-- The critical log line of line 936. -/
def missing_username_line : LogEvent :=
  ⟨Severity.critical, LogMsg.text "proxy needs default username"⟩

/-- Stages of `main_cmdline` after `init_parameters` (lines 942-981):
xa-log init, fd-limit, monitor + mainloop. -/
def final_stages2 (env : Env) (st : St) (fr : Frontend) : RunResult :=
  if env.xa_log_init_fails then exit_nicely st (some fr) 1 else
  if (fr.max_files_number != 0) && env.fdlimit_set_fails then
    exit_nicely st (some fr) 1 else
  if env.mainloop_fails then
    exit_nicely { st with mainloop_reached := true } (some fr) 1 else
  exit_nicely { st with mainloop_reached := true } (some fr) 0

/-- Stages of `main_cmdline` from the plugin-mode check (line 931):
mode check, default-username check (line 935), `init_parameters`
(line 940), then `final_stages2`. -/
def final_stages (env : Env) (st : St) (fr : Frontend) : RunResult :=
  let st3 := { st with mode_check_reached := true }
  if check_plugin_mode_valid (resolve_plugin_names fr.plugin_names) = false then
    exit_nicely
      { st3 with
        mode_conflict := true
        logs := st3.logs ++ [mode_conflict_line] }
      (some fr) 1 else
  if fr.default_username.isNone then
    exit_nicely
      { st3 with logs := st3.logs ++ [missing_username_line] }
      (some fr) 1 else
  final_stages2 env
    { st3 with
      init_parameters_called := true
      srv_params := some (init_parameters fr env.prev_guid_worker_id) }
    fr

/-- Stages of `main_cmdline` from the version-print exit (line 855) to
the pid file (line 911): version exit, strict re-parse, residual
arguments, keepalive fork, pid file, then `final_stages`.  `fr` is the
frontend after the plugin-name default fill. -/
def bootstrap_tail2 (env : Env) (st : St) (fr : Frontend) : RunResult :=
  if fr.print_version then exit_nicely st (some fr) 0 else
  if env.cmdline_parse2_fails then exit_nicely st (some fr) 1 else
  if env.residual_args then exit_nicely st (some fr) 1 else
  if fr.auto_restart && decide (env.keepalive_ret > 0) then
    exit_nicely st (some fr) env.child_exit_status else
  if fr.auto_restart && decide (env.keepalive_ret < 0) then
    exit_nicely st (some fr) 1 else
  if fr.pid_file.isSome && env.pidfile_write_fails then
    exit_nicely st (some fr) 1 else
  final_stages env st fr

/-- Stages of `main_cmdline` from opening the log file (line 778) to
plugin initialization (line 838): log open, log level, engine init,
plugin-name default fill, plugin load, plugin init, then
`bootstrap_tail2` with the init-plugins-completed flag set. -/
def bootstrap_tail (env : Env) (st : St) (fr : Frontend) : RunResult :=
  if fr.log_filename.isSome && env.log_open_fails then
    exit_nicely st (some fr) 1 else
  if fr.log_level.isSome && env.log_level_unknown then
    exit_nicely st (some fr) 1 else
  if env.network_init_fails then exit_nicely st (some fr) 1 else
  if env.load_plugins_fail then exit_nicely st (some (with_plugins fr)) 1 else
  if env.init_plugins_fail then exit_nicely st (some (with_plugins fr)) 1 else
  bootstrap_tail2 env { st with init_plugins_completed := true } (with_plugins fr)

/-- The exit sites of `main_cmdline` before the crash-handler stage
(lines 644-740), in source order.  Every one of them is a
`GOTO_EXIT(EXIT_FAILURE)`, so the only observable difference between
them is the frontend snapshot the exit funnel sees: `some fr` means the
run stops with exit code 1 and funnel frontend `fr`; `none` means the
run reaches the crash-handler stage.  The conditions use the `Env`
fields directly; each equals the frontend projection the source reads
(the named frontend stages are definitionally built from the same
fields). -/
def early_exit (env : Env) : Option (Option Frontend) :=
  if env.glib_init_fails then some none else
  if env.chassis_new_fails then some none else
  if env.frontend_new_fails then some none else
  if env.base_options_fail then some (some chassis_frontend_new) else
  if env.default_file.isSome && env.keyfile_open_fails then
    some (some (frontend_pass1 env)) else
  if env.cmdline_parse1_fails then some (some (frontend_keyfile env)) else
  if env.default_file.isSome && env.keyfile_apply_fails then
    some (some (frontend_opts env)) else
  if env.remote_config_url.isSome && env.remote_config_init_fails then
    some (some (frontend_opts env)) else
  if env.remote_config_url.isSome && env.remote_config_parse_fails then
    some (some (frontend_opts env)) else
  if env.basedir_init_fails then some (some (frontend_opts env)) else
  none

/-- `main_cmdline` (lines 619-1018) as a function of the run
environment: either one of the early `GOTO_EXIT(EXIT_FAILURE)` sites
fires (`early_exit`), or the run proceeds from the crash-handler stage
through `bootstrap_tail`.  Stages with no observable effect in the
embedding (daemonize, pid-file content, SIGPIPE) are represented only
by their failure exits. -/
def main_cmdline (env : Env) : RunResult :=
  match early_exit env with
  | some fr => exit_nicely {} fr 1
  | none => bootstrap_tail env (st_crash env) (frontend_crash env)

/-- Recognizer for the terminal shutdown line built from the format
string of line 1001. -/
def is_shutdown (e : LogEvent) : Bool :=
  match e.msg with
  | LogMsg.shuttingDown _ => true
  | LogMsg.text _ => false

/-- The terminal shutdown lines contained in a run trace. -/
def shutdown_lines (r : RunResult) : List LogEvent :=
  r.logs.filter is_shutdown

/-- An environment in which every external call succeeds and only the
mandatory `default-username` option is supplied. -/
def baseEnv : Env := { default_username := some "root" }

/-- An environment in which every external call succeeds but no
configuration source supplies `default-username`. -/
def envC10 : Env := {}

/-- Run environment selecting both the `shard` and the `proxy` plugin,
with every external call succeeding. -/
def envC1 : Env := { default_username := some "root",
                     plugin_names := some ["shard", "proxy"] }

/-- Run environment in which the very first bootstrap step
(`chassis_frontend_init_glib`, line 644) fails, so the exit funnel runs
with `frontend == NULL`. -/
def envC7 : Env := { default_username := some "root", glib_init_fails := true }

/-- Frontend with an explicitly negative `slave-delay-recover` value
(and the default `slave-delay-down` of 60). -/
def fC4neg : Frontend :=
  { chassis_frontend_new with slave_delay_recover_threshold_sec := -5 }

/-- Frontend with `slave-delay-recover` above `slave-delay-down`. -/
def fC4over : Frontend :=
  { chassis_frontend_new with slave_delay_recover_threshold_sec := 70 }

/-- Frontend with `slave-delay-recover` positive and below
`slave-delay-down`. -/
def fC4low : Frontend :=
  { chassis_frontend_new with slave_delay_recover_threshold_sec := 20 }

/-- Frontend whose `worker_id` option was set to `n`. -/
def fWorker (n : Int) : Frontend := { chassis_frontend_new with worker_id := n }

theorem wrap32_eq_self {x : Int} (h0 : -(2 ^ 31) ≤ x) (h1 : x < 2 ^ 31) :
    wrap32 x = x := by
  unfold wrap32
  have hlt : x + 2 ^ 31 < 2 ^ 32 := by omega
  have hge : (0 : Int) ≤ x + 2 ^ 31 := by omega
  rw [Int.emod_eq_of_lt hge hlt]
  omega

theorem check_plugin_mode_valid_eq_false {ns : List String}
    (hs : "shard" ∈ ns) (hp : "proxy" ∈ ns) :
    check_plugin_mode_valid ns = false := by
  simp only [check_plugin_mode_valid, Bool.not_eq_false', Bool.and_eq_true,
    List.any_eq_true]
  exact ⟨⟨_, hs, by simp⟩, ⟨_, hp, by simp⟩⟩

@[simp] theorem exit_nicely_exit_code (st : St) (fr : Option Frontend) (c : Int) :
    (exit_nicely st fr c).exit_code = c := rfl

@[simp] theorem exit_nicely_frontend_at_exit (st : St) (fr : Option Frontend) (c : Int) :
    (exit_nicely st fr c).frontend_at_exit = fr := rfl

@[simp] theorem exit_nicely_logs (st : St) (fr : Option Frontend) (c : Int) :
    (exit_nicely st fr c).logs = st.logs ++ shutdown_line fr c := rfl

@[simp] theorem exit_nicely_crash_stage_reached (st : St) (fr : Option Frontend) (c : Int) :
    (exit_nicely st fr c).crash_stage_reached = st.crash_stage_reached := rfl

@[simp] theorem exit_nicely_handler_installed (st : St) (fr : Option Frontend) (c : Int) :
    (exit_nicely st fr c).handler_installed = st.handler_installed := rfl

@[simp] theorem exit_nicely_invoke_dbg_at_check (st : St) (fr : Option Frontend) (c : Int) :
    (exit_nicely st fr c).invoke_dbg_at_check = st.invoke_dbg_at_check := rfl

@[simp] theorem exit_nicely_init_plugins_completed (st : St) (fr : Option Frontend) (c : Int) :
    (exit_nicely st fr c).init_plugins_completed = st.init_plugins_completed := rfl

@[simp] theorem exit_nicely_mode_check_reached (st : St) (fr : Option Frontend) (c : Int) :
    (exit_nicely st fr c).mode_check_reached = st.mode_check_reached := rfl

@[simp] theorem exit_nicely_mode_conflict (st : St) (fr : Option Frontend) (c : Int) :
    (exit_nicely st fr c).mode_conflict = st.mode_conflict := rfl

@[simp] theorem exit_nicely_init_parameters_called (st : St) (fr : Option Frontend) (c : Int) :
    (exit_nicely st fr c).init_parameters_called = st.init_parameters_called := rfl

@[simp] theorem exit_nicely_mainloop_reached (st : St) (fr : Option Frontend) (c : Int) :
    (exit_nicely st fr c).mainloop_reached = st.mainloop_reached := rfl

@[simp] theorem exit_nicely_srv_params (st : St) (fr : Option Frontend) (c : Int) :
    (exit_nicely st fr c).srv_params = st.srv_params := rfl

@[simp] theorem with_plugins_print_version (fr : Frontend) :
    (with_plugins fr).print_version = fr.print_version := rfl

@[simp] theorem with_plugins_verbose_shutdown (fr : Frontend) :
    (with_plugins fr).verbose_shutdown = fr.verbose_shutdown := rfl

@[simp] theorem with_plugins_auto_restart (fr : Frontend) :
    (with_plugins fr).auto_restart = fr.auto_restart := rfl

@[simp] theorem with_plugins_pid_file (fr : Frontend) :
    (with_plugins fr).pid_file = fr.pid_file := rfl

@[simp] theorem with_plugins_default_username (fr : Frontend) :
    (with_plugins fr).default_username = fr.default_username := rfl

@[simp] theorem with_plugins_max_files_number (fr : Frontend) :
    (with_plugins fr).max_files_number = fr.max_files_number := rfl

@[simp] theorem with_plugins_plugin_names (fr : Frontend) :
    (with_plugins fr).plugin_names = some (resolve_plugin_names fr.plugin_names) :=
  rfl

@[simp] theorem frontend_crash_invoke_dbg (env : Env) :
    (frontend_crash env).invoke_dbg_on_crash = 1 := rfl

@[simp] theorem frontend_crash_print_version (env : Env) :
    (frontend_crash env).print_version = env.print_version := rfl

@[simp] theorem frontend_crash_verbose_shutdown (env : Env) :
    (frontend_crash env).verbose_shutdown = env.verbose_shutdown := rfl

@[simp] theorem frontend_crash_auto_restart (env : Env) :
    (frontend_crash env).auto_restart = env.auto_restart := rfl

@[simp] theorem frontend_crash_pid_file (env : Env) :
    (frontend_crash env).pid_file = env.pid_file := rfl

@[simp] theorem frontend_crash_default_username (env : Env) :
    (frontend_crash env).default_username = env.default_username := rfl

@[simp] theorem frontend_crash_plugin_names (env : Env) :
    (frontend_crash env).plugin_names = env.plugin_names := rfl

@[simp] theorem frontend_crash_log_filename (env : Env) :
    (frontend_crash env).log_filename = env.log_filename := rfl

@[simp] theorem frontend_crash_log_level (env : Env) :
    (frontend_crash env).log_level = env.log_level := rfl

@[simp] theorem frontend_crash_max_files_number (env : Env) :
    (frontend_crash env).max_files_number = env.max_files_number := rfl

@[simp] theorem st_crash_crash_stage_reached (env : Env) :
    (st_crash env).crash_stage_reached = true := rfl

@[simp] theorem st_crash_handler_installed (env : Env) :
    (st_crash env).handler_installed = !env.on_valgrind := by
  simp [st_crash]

@[simp] theorem st_crash_invoke_dbg_at_check (env : Env) :
    (st_crash env).invoke_dbg_at_check = some 1 := rfl

@[simp] theorem st_crash_logs (env : Env) : (st_crash env).logs = [] := rfl

@[simp] theorem st_crash_init_plugins_completed (env : Env) :
    (st_crash env).init_plugins_completed = false := rfl

@[simp] theorem st_crash_mode_check_reached (env : Env) :
    (st_crash env).mode_check_reached = false := rfl

@[simp] theorem st_crash_mode_conflict (env : Env) :
    (st_crash env).mode_conflict = false := rfl

@[simp] theorem st_crash_init_parameters_called (env : Env) :
    (st_crash env).init_parameters_called = false := rfl

@[simp] theorem st_crash_mainloop_reached (env : Env) :
    (st_crash env).mainloop_reached = false := rfl

/-- C2: for an option slot of any value type, the value resolved by the
pass sequence of `main_cmdline` (lenient command-line parse, keyfile
application, strict command-line re-parse) is the command-line value
whenever the command line supplies one — command-line values override
keyfile values, which override the compiled-in default. -/
theorem C2_cmdline_overrides_keyfile (α : Type) (dflt keyfileVal cliVal : α) :
    resolveOptionValue dflt (some keyfileVal) (some cliVal) = cliVal ∧
    resolveOptionValue dflt (some keyfileVal) none = keyfileVal ∧
    resolveOptionValue dflt (none : Option α) none = dflt :=
  ⟨rfl, rfl, rfl⟩

/-- C3: after `init_parameters`, the resolved default pool size equals
the configured default `d`, and the resolved max pool size equals the
configured max `m` when `m ≥ d` and `d * 2` when `m < d` (including
`m = 0`, the unset case).  The range hypotheses keep the C `int` shift
`d << 1` free of overflow. -/
theorem C3_pool_sizes (f : Frontend) (w : Int)
    (h0 : 0 ≤ f.default_pool_size) (h1 : f.default_pool_size < 2 ^ 30) :
    (init_parameters f w).mid_idle_connections = f.default_pool_size ∧
    (f.max_pool_size ≥ f.default_pool_size →
      (init_parameters f w).max_idle_connections = f.max_pool_size) ∧
    (f.max_pool_size < f.default_pool_size →
      (init_parameters f w).max_idle_connections = f.default_pool_size * 2) := by
  refine ⟨rfl, ?_, ?_⟩ <;> intro h
  · simp [init_parameters, h]
  · have hlt : ¬ f.max_pool_size ≥ f.default_pool_size := not_le.mpr h
    simp only [init_parameters, hlt, if_false]
    exact wrap32_eq_self (by omega) (by omega)

/-- C3 witness: with the compiled-in defaults (`default-pool-size` 100,
`max-pool-size` unset i.e. 0), the resolved default pool size is the
configured 100 and the resolved max pool size is its double. -/
theorem C3_pool_sizes_witness :
    (init_parameters chassis_frontend_new 0).mid_idle_connections =
      chassis_frontend_new.default_pool_size ∧
    (init_parameters chassis_frontend_new 0).max_idle_connections =
      chassis_frontend_new.default_pool_size * 2 := by
  have h := C3_pool_sizes chassis_frontend_new 0 (by decide) (by decide)
  exact ⟨h.1, h.2.2 (by decide)⟩

/-- C4 counterexample: with `slave-delay-recover` explicitly set to the
negative value -5 (so it is set, not unset, and does not exceed
`slave-delay-down` = 60), the claim says the resolved recover threshold
equals the configured recover value; the code instead takes the
`recover ≤ 0` branch and resolves it to `down / 2` = 30. -/
theorem C4_counterexample :
    fC4neg.slave_delay_recover_threshold_sec ≠ 0 ∧
    ¬ fC4neg.slave_delay_recover_threshold_sec >
        fC4neg.slave_delay_down_threshold_sec ∧
    (init_parameters fC4neg 0).slave_delay_recover_threshold_sec ≠
      fC4neg.slave_delay_recover_threshold_sec := by
  refine ⟨by norm_num [fC4neg, chassis_frontend_new],
          by norm_num [fC4neg, chassis_frontend_new],
          by norm_num [fC4neg, chassis_frontend_new, init_parameters]⟩

/-- C4 (amended): after `init_parameters`, if the configured recover
threshold is not positive (including the unset value 0) the resolved
recover threshold equals `down / 2` and no warning is emitted; if it is
positive and exceeds `down` it is clamped to `down` with a warning; and
if it is positive and at most `down` it is kept, with no warning. -/
theorem C4_slave_delay (f : Frontend) (w : Int) :
    (¬ 0 < f.slave_delay_recover_threshold_sec →
      (init_parameters f w).slave_delay_recover_threshold_sec =
        f.slave_delay_down_threshold_sec / 2 ∧
      (init_parameters f w).slave_delay_warned = false) ∧
    (0 < f.slave_delay_recover_threshold_sec →
      f.slave_delay_recover_threshold_sec > f.slave_delay_down_threshold_sec →
      (init_parameters f w).slave_delay_recover_threshold_sec =
        f.slave_delay_down_threshold_sec ∧
      (init_parameters f w).slave_delay_warned = true) ∧
    (0 < f.slave_delay_recover_threshold_sec →
      f.slave_delay_recover_threshold_sec ≤ f.slave_delay_down_threshold_sec →
      (init_parameters f w).slave_delay_recover_threshold_sec =
        f.slave_delay_recover_threshold_sec ∧
      (init_parameters f w).slave_delay_warned = false) := by
  refine ⟨fun h => ?_, fun h1 h2 => ?_, fun h1 h2 => ?_⟩
  · simp [init_parameters, h]
  · simp [init_parameters, h1, h2]
  · simp [init_parameters, h1, not_lt.mpr h2]

/-- C4 witness: with `down` = 60, the three branches at concrete
inputs: recover unset (0) resolves to 30; recover = 70 is clamped to 60
with the warning; recover = 20 is kept. -/
theorem C4_slave_delay_witness :
    (init_parameters chassis_frontend_new 0).slave_delay_recover_threshold_sec
      = 30 ∧
    (init_parameters fC4over 0).slave_delay_recover_threshold_sec = 60 ∧
    (init_parameters fC4over 0).slave_delay_warned = true ∧
    (init_parameters fC4low 0).slave_delay_recover_threshold_sec = 20 ∧
    (init_parameters fC4low 0).slave_delay_warned = false := by
  have ha := (C4_slave_delay chassis_frontend_new 0).1
    (by norm_num [chassis_frontend_new])
  have hb := (C4_slave_delay fC4over 0).2.1
    (by norm_num [fC4over, chassis_frontend_new])
    (by norm_num [fC4over, chassis_frontend_new])
  have hc := (C4_slave_delay fC4low 0).2.2
    (by norm_num [fC4low, chassis_frontend_new])
    (by norm_num [fC4low, chassis_frontend_new])
  exact ⟨ha.1.trans (by norm_num [chassis_frontend_new]),
         hb.1.trans (by norm_num [fC4over, chassis_frontend_new]), hb.2,
         hc.1.trans (by norm_num [fC4low, chassis_frontend_new]), hc.2⟩

/-- C5: after `init_parameters`, a positive configured `worker_id` is
masked to its low six bits (`input & 0x3F`), and a non-positive one
leaves the worker-id slot at its previous value. -/
theorem C5_worker_id (f : Frontend) (w : Int) :
    (0 < f.worker_id →
      (init_parameters f w).guid_worker_id = Int.land f.worker_id 63) ∧
    (¬ 0 < f.worker_id → (init_parameters f w).guid_worker_id = w) := by
  constructor <;> intro h <;> simp [init_parameters, h]

/-- C5 witness: worker-id input 64 collapses to 0, input 65 collapses
to 1, and input 0 leaves the previous slot value 7 unchanged. -/
theorem C5_worker_id_witness :
    (init_parameters (fWorker 64) 7).guid_worker_id = 0 ∧
    (init_parameters (fWorker 65) 7).guid_worker_id = 1 ∧
    (init_parameters (fWorker 0) 7).guid_worker_id = 7 := by
  have h64 := (C5_worker_id (fWorker 64) 7).1 (by decide)
  have h65 := (C5_worker_id (fWorker 65) 7).1 (by decide)
  have h0 := (C5_worker_id (fWorker 0) 7).2 (by decide)
  exact ⟨h64.trans (by decide), h65.trans (by decide), h0⟩

/-- C6: when no configuration source supplies plugin names (the
plugin-name array is NULL), the resolved plugin list is exactly the
one-element list holding the built-in default plugin name. -/
theorem C6_default_plugin_list :
    resolve_plugin_names none = [DEFAULT_PLUGIN] ∧
    (resolve_plugin_names none).length = 1 :=
  ⟨rfl, rfl⟩

/-- C8: the SIGSEGV handler captures at most 16 stack frames, emits each
captured frame as a warning-level log line (every line it emits is at
warning level), and terminates by raising the abort signal — it never
returns gracefully. -/
theorem C8_sigsegv_handler (stack : List String) :
    (sigsegv_handler stack).2 = HandlerOutcome.abortSignal ∧
    (sigsegv_handler stack).2 ≠ HandlerOutcome.gracefulReturn ∧
    (stack.take 16).length ≤ 16 ∧
    (∀ s ∈ stack.take 16,
      (⟨Severity.warning, LogMsg.text s⟩ : LogEvent) ∈ (sigsegv_handler stack).1) ∧
    (∀ e ∈ (sigsegv_handler stack).1, e.sev = Severity.warning) := by
  refine ⟨rfl, by simp [sigsegv_handler], ?_, fun s hs => ?_, fun e he => ?_⟩
  · exact List.length_take_le 16 stack
  · exact List.mem_cons_of_mem _ (List.mem_map_of_mem _ hs)
  · simp only [sigsegv_handler, log_backtrace, List.mem_cons, List.mem_map] at he
    rcases he with h | ⟨s, _, h⟩ <;> subst h <;> rfl

/-- C8 witness: on a concrete two-frame stack the handler aborts and the
first frame appears among its warning lines. -/
theorem C8_sigsegv_handler_witness :
    (sigsegv_handler ["frame0", "frame1"]).2 = HandlerOutcome.abortSignal ∧
    (⟨Severity.warning, LogMsg.text "frame0"⟩ : LogEvent) ∈
      (sigsegv_handler ["frame0", "frame1"]).1 := by
  refine ⟨(C8_sigsegv_handler ["frame0", "frame1"]).1, ?_⟩
  exact (C8_sigsegv_handler ["frame0", "frame1"]).2.2.2.1 "frame0" (by decide)

theorem final_stages2_crash_fields (env : Env) (st : St) (fr : Frontend) :
    (final_stages2 env st fr).crash_stage_reached = st.crash_stage_reached ∧
    (final_stages2 env st fr).invoke_dbg_at_check = st.invoke_dbg_at_check ∧
    (final_stages2 env st fr).handler_installed = st.handler_installed := by
  simp only [final_stages2]
  split_ifs <;> exact ⟨rfl, rfl, rfl⟩

theorem final_stages_crash_fields (env : Env) (st : St) (fr : Frontend) :
    (final_stages env st fr).crash_stage_reached = st.crash_stage_reached ∧
    (final_stages env st fr).invoke_dbg_at_check = st.invoke_dbg_at_check ∧
    (final_stages env st fr).handler_installed = st.handler_installed := by
  simp only [final_stages]
  split_ifs <;>
    first
      | exact ⟨rfl, rfl, rfl⟩
      | exact final_stages2_crash_fields env _ _

theorem bootstrap_tail2_crash_fields (env : Env) (st : St) (fr : Frontend) :
    (bootstrap_tail2 env st fr).crash_stage_reached = st.crash_stage_reached ∧
    (bootstrap_tail2 env st fr).invoke_dbg_at_check = st.invoke_dbg_at_check ∧
    (bootstrap_tail2 env st fr).handler_installed = st.handler_installed := by
  simp only [bootstrap_tail2]
  split_ifs <;>
    first
      | exact ⟨rfl, rfl, rfl⟩
      | exact final_stages_crash_fields env _ _

theorem bootstrap_tail_crash_fields (env : Env) (st : St) (fr : Frontend) :
    (bootstrap_tail env st fr).crash_stage_reached = st.crash_stage_reached ∧
    (bootstrap_tail env st fr).invoke_dbg_at_check = st.invoke_dbg_at_check ∧
    (bootstrap_tail env st fr).handler_installed = st.handler_installed := by
  simp only [bootstrap_tail]
  split_ifs <;>
    first
      | exact ⟨rfl, rfl, rfl⟩
      | exact bootstrap_tail2_crash_fields env _ _

/-- C9: on every run that reaches the crash-handler installation stage
(lines 742-753), the `invoke_dbg_on_crash` flag has been overwritten to
1 — regardless of whether `--log-backtrace-on-crash` was given — and
the SIGSEGV handler is installed exactly when the process is not
running under valgrind. -/
theorem C9_crash_handler (env : Env)
    (h : (main_cmdline env).crash_stage_reached = true) :
    (main_cmdline env).invoke_dbg_at_check = some 1 ∧
    (main_cmdline env).handler_installed = !env.on_valgrind := by
  cases he : early_exit env with
  | some fr =>
      simp only [main_cmdline, he] at h
      exact Bool.noConfusion h
  | none =>
      simp only [main_cmdline, he]
      exact ⟨(bootstrap_tail_crash_fields env (st_crash env)
                (frontend_crash env)).2.1.trans
                  (st_crash_invoke_dbg_at_check env),
             (bootstrap_tail_crash_fields env (st_crash env)
                (frontend_crash env)).2.2.trans
                  (st_crash_handler_installed env)⟩

/-- C9 witness: a fully successful run reaches the crash-handler stage,
records flag value 1 and installs the handler (not under valgrind). -/
theorem C9_crash_handler_witness :
    (main_cmdline baseEnv).invoke_dbg_at_check = some 1 ∧
    (main_cmdline baseEnv).handler_installed = !baseEnv.on_valgrind :=
  C9_crash_handler baseEnv (by decide)

theorem final_stages_missing_username (env : Env) (st : St) (fr : Frontend)
    (hu : fr.default_username = none) :
    (final_stages env st fr).exit_code = 1 ∧
    (final_stages env st fr).init_parameters_called = st.init_parameters_called ∧
    (final_stages env st fr).mainloop_reached = st.mainloop_reached := by
  simp only [final_stages]
  split_ifs with h1 h2
  · exact ⟨rfl, rfl, rfl⟩
  · exact ⟨rfl, rfl, rfl⟩
  · exact absurd (by simp [hu]) h2

theorem bootstrap_tail2_missing_username (env : Env) (st : St) (fr : Frontend)
    (hu : fr.default_username = none)
    (hv : fr.print_version = false)
    (hk : fr.auto_restart = true → env.keepalive_ret = 0) :
    (bootstrap_tail2 env st fr).exit_code = 1 ∧
    (bootstrap_tail2 env st fr).init_parameters_called =
      st.init_parameters_called ∧
    (bootstrap_tail2 env st fr).mainloop_reached = st.mainloop_reached := by
  simp only [bootstrap_tail2]
  split_ifs with h1 h2 h3 h4 h5 h6
  · exact absurd h1 (by simp [hv])
  · exact ⟨rfl, rfl, rfl⟩
  · exact ⟨rfl, rfl, rfl⟩
  · simp only [Bool.and_eq_true, decide_eq_true_eq] at h4
    rw [hk h4.1] at h4
    exact absurd h4.2 (lt_irrefl 0)
  · exact ⟨rfl, rfl, rfl⟩
  · exact ⟨rfl, rfl, rfl⟩
  · exact final_stages_missing_username env st fr hu

theorem bootstrap_tail_missing_username (env : Env) (st : St) (fr : Frontend)
    (hu : fr.default_username = none)
    (hv : fr.print_version = false)
    (hk : fr.auto_restart = true → env.keepalive_ret = 0) :
    (bootstrap_tail env st fr).exit_code = 1 ∧
    (bootstrap_tail env st fr).init_parameters_called =
      st.init_parameters_called ∧
    (bootstrap_tail env st fr).mainloop_reached = st.mainloop_reached := by
  simp only [bootstrap_tail]
  split_ifs <;>
    first
      | exact ⟨rfl, rfl, rfl⟩
      | exact bootstrap_tail2_missing_username env _ (with_plugins fr)
          (by simpa using hu) (by simpa using hv)
          (fun ha => hk (by simpa using ha))

/-- C10: when no configuration source supplies a default username and
the version-print fast path is not taken (and the run plays the
bootstrap role, i.e. any keepalive fork designates it as the child),
`main_cmdline` exits through the funnel with a non-zero code, and
neither `init_parameters` nor the mainloop is ever reached. -/
theorem C10_missing_username (env : Env)
    (hu : env.default_username = none)
    (hv : env.print_version = false)
    (hk : env.auto_restart = true → env.keepalive_ret = 0) :
    (main_cmdline env).exit_code ≠ 0 ∧
    (main_cmdline env).init_parameters_called = false ∧
    (main_cmdline env).mainloop_reached = false := by
  cases he : early_exit env with
  | some fr =>
      simp only [main_cmdline, he]
      exact ⟨by simp, rfl, rfl⟩
  | none =>
      simp only [main_cmdline, he]
      have h := bootstrap_tail_missing_username env (st_crash env)
        (frontend_crash env) (by simpa using hu) (by simpa using hv)
        (fun ha => hk (by simpa using ha))
      refine ⟨?_, h.2.1.trans (st_crash_init_parameters_called env),
              h.2.2.trans (st_crash_mainloop_reached env)⟩
      rw [h.1]
      norm_num

/-- C10 witness: with every external call succeeding and no
default-username supplied, the run exits non-zero before
`init_parameters` and before the mainloop. -/
theorem C10_missing_username_witness :
    (main_cmdline envC10).exit_code ≠ 0 ∧
    (main_cmdline envC10).init_parameters_called = false ∧
    (main_cmdline envC10).mainloop_reached = false :=
  C10_missing_username envC10 rfl rfl (fun _ => rfl)

theorem final_stages_mode_conflict (env : Env) (st : St) (fr : Frontend)
    (hs : "shard" ∈ resolve_plugin_names fr.plugin_names)
    (hp : "proxy" ∈ resolve_plugin_names fr.plugin_names) :
    (final_stages env st fr).exit_code = 1 ∧
    (final_stages env st fr).mode_conflict = true ∧
    (final_stages env st fr).mainloop_reached = st.mainloop_reached ∧
    (final_stages env st fr).init_parameters_called =
      st.init_parameters_called ∧
    (final_stages env st fr).init_plugins_completed =
      st.init_plugins_completed := by
  have hc := check_plugin_mode_valid_eq_false hs hp
  simp only [final_stages]
  split_ifs
  exact ⟨rfl, rfl, rfl, rfl, rfl⟩

theorem bootstrap_tail2_mode_conflict (env : Env) (st : St) (fr : Frontend)
    (hs : "shard" ∈ resolve_plugin_names fr.plugin_names)
    (hp : "proxy" ∈ resolve_plugin_names fr.plugin_names)
    (hst : st.mode_check_reached = false)
    (hr : (bootstrap_tail2 env st fr).mode_check_reached = true) :
    (bootstrap_tail2 env st fr).exit_code = 1 ∧
    (bootstrap_tail2 env st fr).mode_conflict = true ∧
    (bootstrap_tail2 env st fr).mainloop_reached = st.mainloop_reached ∧
    (bootstrap_tail2 env st fr).init_parameters_called =
      st.init_parameters_called ∧
    (bootstrap_tail2 env st fr).init_plugins_completed =
      st.init_plugins_completed := by
  simp only [bootstrap_tail2] at hr ⊢
  split_ifs at hr ⊢ <;>
    first
      | exact Bool.noConfusion (hst.symm.trans hr)
      | exact final_stages_mode_conflict env st fr hs hp

theorem bootstrap_tail_mode_conflict (env : Env) (st : St) (fr : Frontend)
    (hs : "shard" ∈ resolve_plugin_names fr.plugin_names)
    (hp : "proxy" ∈ resolve_plugin_names fr.plugin_names)
    (hst : st.mode_check_reached = false)
    (hr : (bootstrap_tail env st fr).mode_check_reached = true) :
    (bootstrap_tail env st fr).exit_code = 1 ∧
    (bootstrap_tail env st fr).mode_conflict = true ∧
    (bootstrap_tail env st fr).mainloop_reached = st.mainloop_reached ∧
    (bootstrap_tail env st fr).init_parameters_called =
      st.init_parameters_called ∧
    (bootstrap_tail env st fr).init_plugins_completed = true := by
  simp only [bootstrap_tail] at hr ⊢
  split_ifs at hr ⊢ <;>
    first
      | exact Bool.noConfusion (hst.symm.trans hr)
      | exact bootstrap_tail2_mode_conflict env _ (with_plugins fr) hs hp hst hr

/-- C1 counterexample: with both `shard` and `proxy` selected and every
external call succeeding, the run does fail with the mode-conflict
error and exit code 1 without reaching the mainloop — but plugin
initialization (`chassis_frontend_init_plugins`, line 838) has already
completed when the conflict check at line 931 fires, refuting "fails
before plugin initialization completes". -/
theorem C1_counterexample :
    (main_cmdline envC1).mode_conflict = true ∧
    (main_cmdline envC1).exit_code = 1 ∧
    (main_cmdline envC1).init_plugins_completed = true ∧
    (main_cmdline envC1).mainloop_reached = false :=
  ⟨rfl, rfl, rfl, rfl⟩

/-- C1 (amended): if the resolved plugin list contains both `shard` and
`proxy` and the run reaches the plugin-mode check (line 931, which lies
after plugin initialization), bootstrap fails there with the
mode-conflict error and exit code 1, plugin initialization has already
completed, and neither `init_parameters` nor the mainloop is ever
reached. -/
theorem C1_mode_conflict (env : Env)
    (hs : "shard" ∈ resolve_plugin_names env.plugin_names)
    (hp : "proxy" ∈ resolve_plugin_names env.plugin_names)
    (hr : (main_cmdline env).mode_check_reached = true) :
    (main_cmdline env).exit_code = 1 ∧
    (main_cmdline env).mode_conflict = true ∧
    (main_cmdline env).init_plugins_completed = true ∧
    (main_cmdline env).mainloop_reached = false ∧
    (main_cmdline env).init_parameters_called = false := by
  cases he : early_exit env with
  | some fr =>
      simp only [main_cmdline, he] at hr
      exact Bool.noConfusion hr
  | none =>
      simp only [main_cmdline, he] at hr ⊢
      have h := bootstrap_tail_mode_conflict env (st_crash env)
        (frontend_crash env) hs hp (st_crash_mode_check_reached env) hr
      exact ⟨h.1, h.2.1, h.2.2.2.2,
             h.2.2.1.trans (st_crash_mainloop_reached env),
             h.2.2.2.1.trans (st_crash_init_parameters_called env)⟩

/-- C1 witness: the amended claim at the concrete environment selecting
both `shard` and `proxy` with every external call succeeding. -/
theorem C1_mode_conflict_witness :
    (main_cmdline envC1).exit_code = 1 ∧
    (main_cmdline envC1).mode_conflict = true ∧
    (main_cmdline envC1).init_plugins_completed = true ∧
    (main_cmdline envC1).mainloop_reached = false ∧
    (main_cmdline envC1).init_parameters_called = false :=
  C1_mode_conflict envC1 (by decide) (by decide) (by decide)

theorem filter_shutdown_line (fr : Option Frontend) (c : Int) :
    (shutdown_line fr c).filter is_shutdown = shutdown_line fr c := by
  cases fr with
  | none => rfl
  | some f =>
      by_cases hf : f.print_version <;> simp [shutdown_line, hf, is_shutdown]

theorem shutdown_lines_exit_nicely (st : St) (fr : Option Frontend) (c : Int)
    (hst : st.logs.filter is_shutdown = []) :
    shutdown_lines (exit_nicely st fr c) = shutdown_line fr c := by
  simp [shutdown_lines, List.filter_append, hst, filter_shutdown_line]

theorem final_stages2_shutdown (env : Env) (st : St) (fr : Frontend)
    (hst : st.logs.filter is_shutdown = []) :
    shutdown_lines (final_stages2 env st fr) =
      shutdown_line (final_stages2 env st fr).frontend_at_exit
        (final_stages2 env st fr).exit_code := by
  simp only [final_stages2]
  split_ifs <;> exact shutdown_lines_exit_nicely _ _ _ hst

theorem final_stages_shutdown (env : Env) (st : St) (fr : Frontend)
    (hst : st.logs.filter is_shutdown = []) :
    shutdown_lines (final_stages env st fr) =
      shutdown_line (final_stages env st fr).frontend_at_exit
        (final_stages env st fr).exit_code := by
  simp only [final_stages]
  split_ifs <;>
    first
      | exact shutdown_lines_exit_nicely _ _ _
          (by simp [List.filter_append, hst, mode_conflict_line,
                    missing_username_line, is_shutdown])
      | exact final_stages2_shutdown env _ fr hst

theorem bootstrap_tail2_shutdown (env : Env) (st : St) (fr : Frontend)
    (hst : st.logs.filter is_shutdown = []) :
    shutdown_lines (bootstrap_tail2 env st fr) =
      shutdown_line (bootstrap_tail2 env st fr).frontend_at_exit
        (bootstrap_tail2 env st fr).exit_code := by
  simp only [bootstrap_tail2]
  split_ifs <;>
    first
      | exact shutdown_lines_exit_nicely _ _ _ hst
      | exact final_stages_shutdown env st fr hst

theorem bootstrap_tail_shutdown (env : Env) (st : St) (fr : Frontend)
    (hst : st.logs.filter is_shutdown = []) :
    shutdown_lines (bootstrap_tail env st fr) =
      shutdown_line (bootstrap_tail env st fr).frontend_at_exit
        (bootstrap_tail env st fr).exit_code := by
  simp only [bootstrap_tail]
  split_ifs <;>
    first
      | exact shutdown_lines_exit_nicely _ _ _ hst
      | exact bootstrap_tail2_shutdown env _ (with_plugins fr) hst

/-- C7 counterexample: when the very first bootstrap step fails
(`chassis_frontend_init_glib`), the run exits non-zero and is not a
version-print run, yet the funnel emits no terminal shutdown line at
all (the `frontend &&` guard of line 999 fails because the frontend was
never allocated) — refuting "on every exit path ... exactly one
terminal log line". -/
theorem C7_counterexample :
    envC7.print_version = false ∧
    (main_cmdline envC7).exit_code = 1 ∧
    (main_cmdline envC7).frontend_at_exit = none ∧
    shutdown_lines (main_cmdline envC7) = [] :=
  ⟨rfl, rfl, rfl, rfl⟩

/-- C7 (amended): on every run, the terminal shutdown lines of the
whole trace are exactly the ones appended by the exit funnel: exactly
one line reporting the numeric exit code when the funnel sees an
allocated frontend that is not in version-print mode — at critical
severity when `verbose_shutdown` is set and at informational (message)
severity otherwise — and no such line when only printing version
information or when the frontend was never allocated. -/
theorem C7_shutdown_funnel (env : Env) :
    shutdown_lines (main_cmdline env) =
      shutdown_line (main_cmdline env).frontend_at_exit
        (main_cmdline env).exit_code ∧
    (∀ f, (main_cmdline env).frontend_at_exit = some f →
      f.print_version = false →
      shutdown_lines (main_cmdline env) =
        [⟨if f.verbose_shutdown then Severity.critical else Severity.message,
          LogMsg.shuttingDown (main_cmdline env).exit_code⟩]) ∧
    (∀ f, (main_cmdline env).frontend_at_exit = some f →
      f.print_version = true →
      shutdown_lines (main_cmdline env) = []) ∧
    ((main_cmdline env).frontend_at_exit = none →
      shutdown_lines (main_cmdline env) = []) := by
  have hmain : shutdown_lines (main_cmdline env) =
      shutdown_line (main_cmdline env).frontend_at_exit
        (main_cmdline env).exit_code := by
    cases he : early_exit env with
    | some fr =>
        simp only [main_cmdline, he]
        exact shutdown_lines_exit_nicely _ _ _ rfl
    | none =>
        simp only [main_cmdline, he]
        exact bootstrap_tail_shutdown env _ _ rfl
  refine ⟨hmain, fun f hf hv => ?_, fun f hf hv => ?_, fun hf => ?_⟩
  · rw [hmain, hf]
    simp [shutdown_line, hv]
  · rw [hmain, hf]
    simp [shutdown_line, hv]
  · rw [hmain, hf]
    rfl

/-- C7 witness: a fully successful run carries exactly one terminal
shutdown line, at informational severity, reporting exit code 0. -/
theorem C7_shutdown_funnel_witness :
    shutdown_lines (main_cmdline baseEnv) =
      [⟨Severity.message, LogMsg.shuttingDown 0⟩] := by
  have h := (C7_shutdown_funnel baseEnv).2.1
    (with_plugins (frontend_crash baseEnv)) rfl rfl
  exact h.trans (by rfl)

end Cetus
